import Mathlib

/-!
Shallow embedding of the DAC driver in `src/src/dac.rs` (ch32-hal).

The driver controls a digital-to-analog converter peripheral with two output
channels.  We model the peripheral register file, the reference-counted
peripheral lifecycle, and every driver operation as a function on an explicit
state that also records a trace of register operations and lifecycle requests,
so that claims about "exactly one write" or "one read-modify-write" are
derivable rather than asserted.
-/

/-- Trigger source selector (`crate::pac::dac::vals::TrigSel`); an opaque
selector value, modelled as a natural number. -/
abbrev TriggerSel := Nat

/-- Single 8 or 12 bit value that can be output by the DAC
(`Value` in `dac.rs`).  `u8`/`u16` payloads are modelled as `Nat`. -/
inductive Value where
  | bit8 (v : Nat)
  | bit12Left (v : Nat)
  | bit12Right (v : Nat)
deriving DecidableEq, Repr

/-- Dual 8 or 12 bit values output on channels 1 and 2 simultaneously
(`DualValue` in `dac.rs`). -/
inductive DualValue where
  | bit8 (v1 v2 : Nat)
  | bit12Left (v1 v2 : Nat)
  | bit12Right (v1 v2 : Nat)
deriving DecidableEq, Repr

/-- Array variant of `Value` (`ValueArray` in `dac.rs`); the borrowed buffer
is modelled as a list of sample values. -/
inductive ValueArray where
  | bit8 (buf : List Nat)
  | bit12Left (buf : List Nat)
  | bit12Right (buf : List Nat)
deriving DecidableEq, Repr

/-- Modelled from the spec: the register field setters live in the PAC crate
(`crate::pac`), which is not under `src/`.  Per the spec's truncation law
("12-bit fields simply drop the high bits of whatever is supplied"), a field
of width `w` keeps only the low `w` bits of the supplied value. -/
def maskField (width v : Nat) : Nat := v % 2 ^ width

/-- The DAC control register `CR`: per-channel enable (`en`), trigger-enable
(`ten`), trigger-source (`tsel`) and DMA-enable (`dmaen`) fields, indexed by
the channel index `IDX = N - 1`. -/
structure Cr where
  en : Fin 2 → Bool
  ten : Fin 2 → Bool
  tsel : Fin 2 → TriggerSel
  dmaen : Fin 2 → Bool
deriving DecidableEq

/-- Reset value of the control register: all fields zero. -/
def Cr.reset : Cr :=
  { en := fun _ => false, ten := fun _ => false, tsel := fun _ => 0, dmaen := fun _ => false }

/-- PAC field setter `set_en`. -/
def Cr.set_en (r : Cr) (idx : Fin 2) (v : Bool) : Cr :=
  { r with en := Function.update r.en idx v }

/-- PAC field setter `set_ten`. -/
def Cr.set_ten (r : Cr) (idx : Fin 2) (v : Bool) : Cr :=
  { r with ten := Function.update r.ten idx v }

/-- PAC field setter `set_tsel`. -/
def Cr.set_tsel (r : Cr) (idx : Fin 2) (v : TriggerSel) : Cr :=
  { r with tsel := Function.update r.tsel idx v }

/-- PAC field setter `set_dmaen`. -/
def Cr.set_dmaen (r : Cr) (idx : Fin 2) (v : Bool) : Cr :=
  { r with dmaen := Function.update r.dmaen idx v }

/-- The software trigger register `SWTRIGR`: one `swtrig` bit per channel. -/
structure Swtrigr where
  swtrig : Fin 2 → Bool
deriving DecidableEq

/-- Reset value of the software trigger register. -/
def Swtrigr.reset : Swtrigr := { swtrig := fun _ => false }

/-- PAC field setter `set_swtrig`. -/
def Swtrigr.set_swtrig (r : Swtrigr) (idx : Fin 2) (v : Bool) : Swtrigr :=
  { swtrig := Function.update r.swtrig idx v }

/-- A dual data-holding register (`DHR8RD` / `DHR12LD` / `DHR12RD`): one
`dhr` field per channel. -/
structure DualDhr where
  dhr : Fin 2 → Nat
deriving DecidableEq

/-- Reset value of a dual data-holding register. -/
def DualDhr.reset : DualDhr := { dhr := fun _ => 0 }

/-- PAC field setter `set_dhr` for a dual data-holding register of field
width `width`. -/
def DualDhr.set_dhr (r : DualDhr) (width : Nat) (idx : Fin 2) (v : Nat) : DualDhr :=
  { dhr := Function.update r.dhr idx (maskField width v) }

/-- The full DAC register file: control register, software trigger register,
per-channel data-holding registers in the three formats (their single `dhr`
field is stored directly), per-channel data-output registers, and the three
dual data-holding registers. -/
structure DacRegs where
  cr : Cr
  swtrigr : Swtrigr
  dhr8r : Fin 2 → Nat
  dhr12l : Fin 2 → Nat
  dhr12r : Fin 2 → Nat
  dor : Fin 2 → Nat
  dhr8rd : DualDhr
  dhr12ld : DualDhr
  dhr12rd : DualDhr
deriving DecidableEq

/-- Reset value of the whole register file. -/
def DacRegs.reset : DacRegs :=
  { cr := Cr.reset, swtrigr := Swtrigr.reset
    dhr8r := fun _ => 0, dhr12l := fun _ => 0, dhr12r := fun _ => 0
    dor := fun _ => 0
    dhr8rd := DualDhr.reset, dhr12ld := DualDhr.reset, dhr12rd := DualDhr.reset }

/-- Names of the DAC registers, used to record which register an operation
touched. -/
inductive Reg where
  | cr
  | swtrigr
  | dhr8r (idx : Fin 2)
  | dhr12l (idx : Fin 2)
  | dhr12r (idx : Fin 2)
  | dor (idx : Fin 2)
  | dhr8rd
  | dhr12ld
  | dhr12rd
deriving DecidableEq, Repr

/-- DMA transfer options (`crate::dma::TransferOptions`, not under `src/`):
only the three fields the driver sets explicitly are modelled; the remaining
fields come from `Default::default()` and never vary. -/
structure TransferOptions where
  circular : Bool
  half_transfer_ir : Bool
  complete_transfer_ir : Bool
deriving DecidableEq, Repr

/-- Observable events of one driver operation: a whole-register write, a
read-modify-write, a peripheral enable/reset or disable request, a pin
switched to analog mode, or the start of a DMA transfer with its destination
register and options. -/
inductive Event where
  | writeReg (r : Reg)
  | modifyReg (r : Reg)
  | enableAndReset
  | disableReq
  | setAnalog (idx : Fin 2)
  | dmaTransfer (dst : Reg) (opts : TransferOptions)
deriving DecidableEq, Repr

/-- Driver-visible state: the register file, the peripheral enable reference
count, which output pins are in analog mode, and the event trace. -/
structure DacState where
  regs : DacRegs
  refcount : Nat
  pinAnalog : Fin 2 → Bool
  trace : List Event
deriving DecidableEq

/-- A power-on state: registers at reset values, refcount zero, no pin in
analog mode, empty trace. -/
def DacState.init : DacState :=
  { regs := DacRegs.reset, refcount := 0, pinAnalog := fun _ => false, trace := [] }

/-- Read-modify-write of the control register (`T::regs().cr().modify(..)`,
performed inside a critical section in the source; the critical section makes
the read-modify-write indivisible, which the atomic state update models). -/
def crModify (s : DacState) (f : Cr → Cr) : DacState :=
  { s with regs := { s.regs with cr := f s.regs.cr }
           trace := s.trace ++ [Event.modifyReg Reg.cr] }

/-- Whole-register write of the software trigger register
(`T::regs().swtrigr().write(..)`): the closure is applied to the reset value,
not to the current contents. -/
def swtrigrWrite (s : DacState) (f : Swtrigr → Swtrigr) : DacState :=
  { s with regs := { s.regs with swtrigr := f Swtrigr.reset }
           trace := s.trace ++ [Event.writeReg Reg.swtrigr] }

/-- Write of a channel's 8-bit right-aligned data-holding register
(`T::regs().dhr8r(idx).write(|reg| reg.set_dhr(v))`). -/
def dhr8rWrite (s : DacState) (idx : Fin 2) (v : Nat) : DacState :=
  { s with regs := { s.regs with dhr8r := Function.update s.regs.dhr8r idx (maskField 8 v) }
           trace := s.trace ++ [Event.writeReg (Reg.dhr8r idx)] }

/-- Write of a channel's 12-bit left-aligned data-holding register. -/
def dhr12lWrite (s : DacState) (idx : Fin 2) (v : Nat) : DacState :=
  { s with regs := { s.regs with dhr12l := Function.update s.regs.dhr12l idx (maskField 12 v) }
           trace := s.trace ++ [Event.writeReg (Reg.dhr12l idx)] }

/-- Write of a channel's 12-bit right-aligned data-holding register. -/
def dhr12rWrite (s : DacState) (idx : Fin 2) (v : Nat) : DacState :=
  { s with regs := { s.regs with dhr12r := Function.update s.regs.dhr12r idx (maskField 12 v) }
           trace := s.trace ++ [Event.writeReg (Reg.dhr12r idx)] }

/-- Write of the dual 8-bit data-holding register
(`T::regs().dhr8rd().write(|reg| { reg.set_dhr(0, v1); reg.set_dhr(1, v2); })`). -/
def dhr8rdWrite (s : DacState) (v1 v2 : Nat) : DacState :=
  { s with regs := { s.regs with
             dhr8rd := (DualDhr.reset.set_dhr 8 0 v1).set_dhr 8 1 v2 }
           trace := s.trace ++ [Event.writeReg Reg.dhr8rd] }

/-- Write of the dual 12-bit left-aligned data-holding register. -/
def dhr12ldWrite (s : DacState) (v1 v2 : Nat) : DacState :=
  { s with regs := { s.regs with
             dhr12ld := (DualDhr.reset.set_dhr 12 0 v1).set_dhr 12 1 v2 }
           trace := s.trace ++ [Event.writeReg Reg.dhr12ld] }

/-- Write of the dual 12-bit right-aligned data-holding register. -/
def dhr12rdWrite (s : DacState) (v1 v2 : Nat) : DacState :=
  { s with regs := { s.regs with
             dhr12rd := (DualDhr.reset.set_dhr 12 0 v1).set_dhr 12 1 v2 }
           trace := s.trace ++ [Event.writeReg Reg.dhr12rd] }

/-- Modelled from the spec: `T::enable_and_reset()` comes from the
`RccPeripheral` trait, which is not under `src/`.  The spec describes it as a
reference-counted enable/reset request, one unit per live channel, with the
peripheral physically gated only at the zero boundary; so the call increments
the count, and when the count rises from zero the peripheral is enabled and
reset, putting its registers at their reset values. -/
def enable_and_reset (s : DacState) : DacState :=
  { s with refcount := s.refcount + 1
           regs := if s.refcount = 0 then DacRegs.reset else s.regs
           trace := s.trace ++ [Event.enableAndReset] }

/-- Modelled from the spec: `T::disable()` from the `RccPeripheral` trait is
not under `src/`.  It decrements the shared reference count; the peripheral is
fully disabled exactly when the count reaches zero. -/
def disableReq (s : DacState) : DacState :=
  { s with refcount := s.refcount - 1
           trace := s.trace ++ [Event.disableReq] }

/-- Switching an output pin to analog mode (`pin.set_as_analog()`; the GPIO
implementation is outside `src/`, only the mode change matters here). -/
def set_as_analog (s : DacState) (idx : Fin 2) : DacState :=
  { s with pinAnalog := Function.update s.pinAnalog idx true
           trace := s.trace ++ [Event.setAnalog idx] }

/-- `DacChannel::set_enable(on)`: read-modify-write of the control register's
enable bit for this channel (`dac.rs` lines 96–102).  The channel index `idx`
is the source's `Self::IDX = N - 1`. -/
def DacChannel.set_enable (idx : Fin 2) (b : Bool) (s : DacState) : DacState :=
  crModify s (fun reg => reg.set_en idx b)

/-- `DacChannel::enable()` (`dac.rs` lines 105–107). -/
def DacChannel.enable (idx : Fin 2) (s : DacState) : DacState :=
  DacChannel.set_enable idx true s

/-- `DacChannel::disable()` (`dac.rs` lines 110–112). -/
def DacChannel.disable (idx : Fin 2) (s : DacState) : DacState :=
  DacChannel.set_enable idx false s

/-- `DacChannel::new` (`dac.rs` lines 79–93): set the pin to analog mode,
request the peripheral enable/reset, then enable the channel. -/
def DacChannel.new (idx : Fin 2) (s : DacState) : DacState :=
  DacChannel.enable idx (enable_and_reset (set_as_analog s idx))

/-- `DacChannel::set_trigger(source)` (`dac.rs` lines 117–124): one
read-modify-write that clears the enable bit and sets the trigger-source
field. -/
def DacChannel.set_trigger (idx : Fin 2) (source : TriggerSel) (s : DacState) : DacState :=
  crModify s (fun reg => (reg.set_en idx false).set_tsel idx source)

/-- `DacChannel::set_triggering(on)` (`dac.rs` lines 127–133): one
read-modify-write of the trigger-enable bit. -/
def DacChannel.set_triggering (idx : Fin 2) (b : Bool) (s : DacState) : DacState :=
  crModify s (fun reg => reg.set_ten idx b)

/-- `DacChannel::trigger()` (`dac.rs` lines 136–140): whole-register write of
the software trigger register setting this channel's `swtrig` bit. -/
def DacChannel.trigger (idx : Fin 2) (s : DacState) : DacState :=
  swtrigrWrite s (fun reg => reg.set_swtrig idx true)

/-- `DacChannel::set(value)` (`dac.rs` lines 146–152): dispatch on the
variant to one of the three per-channel data-holding registers. -/
def DacChannel.set (idx : Fin 2) (value : Value) (s : DacState) : DacState :=
  match value with
  | Value.bit8 v => dhr8rWrite s idx v
  | Value.bit12Left v => dhr12lWrite s idx v
  | Value.bit12Right v => dhr12rWrite s idx v

/-- `DacChannel::read()` (`dac.rs` lines 155–157). -/
def DacChannel.read (idx : Fin 2) (s : DacState) : Nat :=
  s.regs.dor idx

/-- `Drop for DacChannel` (`dac.rs` lines 235–239): one peripheral disable
request. -/
def DacChannel.drop (s : DacState) : DacState :=
  disableReq s

/-- The destination register of the DMA transfer in `DacChannel::write`
(`dac.rs` lines 191–219): the data-holding register matching the array's
variant, for this channel index. -/
def writeDst (idx : Fin 2) (data : ValueArray) : Reg :=
  match data with
  | ValueArray.bit8 _ => Reg.dhr8r idx
  | ValueArray.bit12Left _ => Reg.dhr12l idx
  | ValueArray.bit12Right _ => Reg.dhr12r idx

/-- The transfer options built in `DacChannel::write` (`dac.rs` lines
183–188). -/
def txOptions (circular : Bool) : TransferOptions :=
  { circular := circular, half_transfer_ir := false, complete_transfer_ir := !circular }

/-- Modelled from the spec: whether the awaited DMA transfer completes
naturally.  The DMA engine (`crate::dma`, not under `src/`) "completes when
the transfer finishes or, in circular mode, never completes on its own"; a
non-circular transfer completes unless the awaited operation is cancelled
first. -/
def transferCompletes (circular cancelled : Bool) : Bool :=
  !circular && !cancelled

/-- `DacChannel::write(data, circular)` (`dac.rs` lines 173–227): one
read-modify-write setting the enable and DMA-request bits, start of the DMA
transfer, then — only when the awaited transfer completes naturally — one
read-modify-write clearing both bits.  `cancelled` records whether the caller
cancels/drops the awaited operation before completion. -/
def DacChannel.write (idx : Fin 2) (data : ValueArray) (circular cancelled : Bool)
    (s : DacState) : DacState :=
  let s1 := crModify s (fun w => (w.set_en idx true).set_dmaen idx true)
  let s2 := { s1 with trace := s1.trace ++ [Event.dmaTransfer (writeDst idx data) (txOptions circular)] }
  if transferCompletes circular cancelled then
    crModify s2 (fun w => (w.set_en idx false).set_dmaen idx false)
  else
    s2

/-- `Dac::new` (`dac.rs` lines 269–301): both pins to analog mode, the
peripheral enable/reset request performed twice (once per channel), then both
channels enabled.  (The `set_hfsel` calls are compiled out: they are gated on
DAC hardware versions `dac_v5`/`dac_v6`/`dac_v7` other than this one.) -/
def Dac.new (s : DacState) : DacState :=
  let s1 := set_as_analog s 0
  let s2 := set_as_analog s1 1
  let s3 := enable_and_reset s2
  let s4 := enable_and_reset s3
  let s5 := DacChannel.enable 0 s4
  DacChannel.enable 1 s5

/-- `Dac::set(values)` (`dac.rs` lines 324–339): dispatch on the variant to
one of the three dual data-holding registers, writing both channels' values
in a single register write. -/
def Dac.set (values : DualValue) (s : DacState) : DacState :=
  match values with
  | DualValue.bit8 v1 v2 => dhr8rdWrite s v1 v2
  | DualValue.bit12Left v1 v2 => dhr12ldWrite s v1 v2
  | DualValue.bit12Right v1 v2 => dhr12rdWrite s v1 v2

/-- The dual data-holding register that `Dac::set` targets for each variant. -/
def dualReg (values : DualValue) : Reg :=
  match values with
  | DualValue.bit8 _ _ => Reg.dhr8rd
  | DualValue.bit12Left _ _ => Reg.dhr12ld
  | DualValue.bit12Right _ _ => Reg.dhr12rd

/-- The per-channel data-holding register that `DacChannel::set` targets for
each variant. -/
def valueReg (idx : Fin 2) (value : Value) : Reg :=
  match value with
  | Value.bit8 _ => Reg.dhr8r idx
  | Value.bit12Left _ => Reg.dhr12l idx
  | Value.bit12Right _ => Reg.dhr12r idx

/-- The other channel's index. -/
def otherChannel : Fin 2 → Fin 2
  | 0 => 1
  | 1 => 0

lemma otherChannel_ne (idx : Fin 2) : otherChannel idx ≠ idx := by
  fin_cases idx <;> decide

lemma drop_length_append (l1 l2 : List Event) : (l1 ++ l2).drop l1.length = l2 :=
  List.drop_left l1 l2

/-- C1: constructing a `Dac` performs the peripheral enable/reset request
exactly twice (the trace it appends holds exactly two `enableAndReset`
events) and leaves the enable reference count at 2; each `DacChannel` drop
appends exactly one disable request; after one drop the count is still
positive, and it reaches zero exactly after the second drop. -/
theorem Dac.new_drop_refcount (s : DacState) (h : s.refcount = 0) :
    (Dac.new s).trace = s.trace ++
      [Event.setAnalog 0, Event.setAnalog 1, Event.enableAndReset, Event.enableAndReset,
       Event.modifyReg Reg.cr, Event.modifyReg Reg.cr] ∧
    ([Event.setAnalog 0, Event.setAnalog 1, Event.enableAndReset, Event.enableAndReset,
       Event.modifyReg Reg.cr, Event.modifyReg Reg.cr].count Event.enableAndReset = 2) ∧
    (DacChannel.drop (Dac.new s)).trace = (Dac.new s).trace ++ [Event.disableReq] ∧
    (Dac.new s).refcount = 2 ∧
    0 < (DacChannel.drop (Dac.new s)).refcount ∧
    (DacChannel.drop (DacChannel.drop (Dac.new s))).refcount = 0 := by
  refine ⟨?_, by decide, rfl, ?_, ?_, ?_⟩ <;>
    simp [Dac.new, DacChannel.enable, DacChannel.set_enable, crModify, enable_and_reset,
      set_as_analog, DacChannel.drop, disableReq, h]

/-- Witness for C1 at the power-on state. -/
theorem Dac.new_drop_refcount_witness :
    DacState.init.refcount = 0 ∧
    (Dac.new DacState.init).refcount = 2 ∧
    0 < (DacChannel.drop (Dac.new DacState.init)).refcount ∧
    (DacChannel.drop (DacChannel.drop (Dac.new DacState.init))).refcount = 0 :=
  ⟨rfl, (Dac.new_drop_refcount DacState.init rfl).2.2.2.1,
    (Dac.new_drop_refcount DacState.init rfl).2.2.2.2.1,
    (Dac.new_drop_refcount DacState.init rfl).2.2.2.2.2⟩

/-- C2: for every channel and trigger source, `set_trigger` appends exactly
one control-register read-modify-write, after which the channel's enable bit
is cleared (state `Disabled`, whatever it was before) and the channel's
trigger-source field equals `source`. -/
theorem DacChannel.set_trigger_disables_and_sets_source
    (idx : Fin 2) (source : TriggerSel) (s : DacState) :
    (DacChannel.set_trigger idx source s).regs.cr.en idx = false ∧
    (DacChannel.set_trigger idx source s).regs.cr.tsel idx = source ∧
    (DacChannel.set_trigger idx source s).trace = s.trace ++ [Event.modifyReg Reg.cr] := by
  refine ⟨?_, ?_, rfl⟩ <;>
    simp [DacChannel.set_trigger, crModify, Cr.set_en, Cr.set_tsel]

/-- C3: the DMA streaming write starts with a single read-modify-write of the
control register followed by the DMA transfer; only when the awaited transfer
completes naturally (impossible in circular mode: the final conjunct) does a
second read-modify-write follow, and then the enable and DMA-request bits end
cleared; when the operation is cancelled (or circular), no clearing step is
appended and both bits remain set. -/
theorem DacChannel.write_bracket
    (idx : Fin 2) (data : ValueArray) (circular cancelled : Bool) (s : DacState) :
    (DacChannel.write idx data circular cancelled s).trace =
      s.trace ++ [Event.modifyReg Reg.cr,
                  Event.dmaTransfer (writeDst idx data) (txOptions circular)] ++
        (if transferCompletes circular cancelled then [Event.modifyReg Reg.cr] else []) ∧
    (DacChannel.write idx data circular cancelled s).regs.cr.en idx
        = !(transferCompletes circular cancelled) ∧
    (DacChannel.write idx data circular cancelled s).regs.cr.dmaen idx
        = !(transferCompletes circular cancelled) ∧
    transferCompletes true cancelled = false := by
  cases circular <;> cases cancelled <;>
    simp [DacChannel.write, crModify, Cr.set_en, Cr.set_dmaen, transferCompletes]

/-- C4: every DMA transfer started by the streaming write carries options
whose `circular` flag equals the `circular` argument, whose
`half_transfer_ir` is `false`, and whose `complete_transfer_ir` is the
negation of `circular`. -/
theorem DacChannel.write_transfer_options
    (idx : Fin 2) (data : ValueArray) (circular cancelled : Bool) (s : DacState) :
    ∀ dst opts,
      Event.dmaTransfer dst opts ∈
        (DacChannel.write idx data circular cancelled s).trace.drop s.trace.length →
      opts.circular = circular ∧ opts.half_transfer_ir = false ∧
        opts.complete_transfer_ir = !circular := by
  intro dst opts hmem
  cases hc : transferCompletes circular cancelled <;>
    · simp [DacChannel.write, hc, crModify, drop_length_append] at hmem
      rcases hmem with ⟨hdst, hopts⟩
      subst hopts
      simp [txOptions]

/-- Witness for C4 on a concrete circular streaming write. -/
theorem DacChannel.write_transfer_options_witness :
    (Event.dmaTransfer (Reg.dhr8r 0) (txOptions true) ∈
      (DacChannel.write 0 (ValueArray.bit8 [7]) true false DacState.init).trace.drop
        DacState.init.trace.length) ∧
    ((txOptions true).circular = true ∧ (txOptions true).half_transfer_ir = false ∧
      (txOptions true).complete_transfer_ir = !true) :=
  ⟨by decide,
    DacChannel.write_transfer_options 0 (ValueArray.bit8 [7]) true false DacState.init
      (Reg.dhr8r 0) (txOptions true) (by decide)⟩

/-- C5: for every `DualValue`, `Dac::set` appends exactly one register
write, to the dual data-holding register matching the variant, and that one
write stores both channels' (truncated) values. -/
theorem Dac.set_single_dual_write (values : DualValue) (s : DacState) :
    (Dac.set values s).trace = s.trace ++ [Event.writeReg (dualReg values)] ∧
    (match values with
      | DualValue.bit8 v1 v2 =>
          (Dac.set values s).regs.dhr8rd.dhr 0 = maskField 8 v1 ∧
          (Dac.set values s).regs.dhr8rd.dhr 1 = maskField 8 v2
      | DualValue.bit12Left v1 v2 =>
          (Dac.set values s).regs.dhr12ld.dhr 0 = maskField 12 v1 ∧
          (Dac.set values s).regs.dhr12ld.dhr 1 = maskField 12 v2
      | DualValue.bit12Right v1 v2 =>
          (Dac.set values s).regs.dhr12rd.dhr 0 = maskField 12 v1 ∧
          (Dac.set values s).regs.dhr12rd.dhr 1 = maskField 12 v2) := by
  cases values <;>
    simp [Dac.set, dhr8rdWrite, dhr12ldWrite, dhr12rdWrite, dualReg,
      DualDhr.set_dhr, DualDhr.reset, Function.update]

/-- C6: for every channel index and `Value`, `DacChannel::set` appends
exactly one register write, to the data-holding register selected by the
variant and belonging to this channel; the carried payload (truncated to the
field width) is stored there, and the other channel's registers and the other
two formats are untouched. -/
theorem DacChannel.set_dispatch (idx : Fin 2) (value : Value) (s : DacState) :
    (DacChannel.set idx value s).trace = s.trace ++ [Event.writeReg (valueReg idx value)] ∧
    (match value with
      | Value.bit8 v =>
          (DacChannel.set idx value s).regs.dhr8r idx = maskField 8 v ∧
          (DacChannel.set idx value s).regs.dhr8r (otherChannel idx)
            = s.regs.dhr8r (otherChannel idx) ∧
          (DacChannel.set idx value s).regs.dhr12l = s.regs.dhr12l ∧
          (DacChannel.set idx value s).regs.dhr12r = s.regs.dhr12r
      | Value.bit12Left v =>
          (DacChannel.set idx value s).regs.dhr12l idx = maskField 12 v ∧
          (DacChannel.set idx value s).regs.dhr12l (otherChannel idx)
            = s.regs.dhr12l (otherChannel idx) ∧
          (DacChannel.set idx value s).regs.dhr8r = s.regs.dhr8r ∧
          (DacChannel.set idx value s).regs.dhr12r = s.regs.dhr12r
      | Value.bit12Right v =>
          (DacChannel.set idx value s).regs.dhr12r idx = maskField 12 v ∧
          (DacChannel.set idx value s).regs.dhr12r (otherChannel idx)
            = s.regs.dhr12r (otherChannel idx) ∧
          (DacChannel.set idx value s).regs.dhr8r = s.regs.dhr8r ∧
          (DacChannel.set idx value s).regs.dhr12l = s.regs.dhr12l) := by
  cases value <;>
    simp [DacChannel.set, dhr8rWrite, dhr12lWrite, dhr12rWrite, valueReg,
      Function.update_noteq (otherChannel_ne idx)]

/-- C7: constructing a channel on a fresh (refcount-zero) peripheral sets the
output pin to analog mode, performs the enable/reset request exactly once
(the appended trace holds exactly one `enableAndReset`), and leaves the
channel with its enable bit set and its trigger-enable bit clear. -/
theorem DacChannel.new_spec (idx : Fin 2) (s : DacState) (h : s.refcount = 0) :
    (DacChannel.new idx s).pinAnalog idx = true ∧
    (DacChannel.new idx s).trace = s.trace ++
      [Event.setAnalog idx, Event.enableAndReset, Event.modifyReg Reg.cr] ∧
    (DacChannel.new idx s).refcount = 1 ∧
    (DacChannel.new idx s).regs.cr.en idx = true ∧
    (DacChannel.new idx s).regs.cr.ten idx = false := by
  refine ⟨?_, ?_, ?_, ?_, ?_⟩ <;>
    simp [DacChannel.new, DacChannel.enable, DacChannel.set_enable, crModify,
      enable_and_reset, set_as_analog, h, DacRegs.reset, Cr.reset, Cr.set_en]

/-- Witness for C7 at the power-on state, channel index 0. -/
theorem DacChannel.new_spec_witness :
    DacState.init.refcount = 0 ∧
    (DacChannel.new 0 DacState.init).pinAnalog 0 = true ∧
    (DacChannel.new 0 DacState.init).regs.cr.en 0 = true ∧
    (DacChannel.new 0 DacState.init).regs.cr.ten 0 = false :=
  ⟨rfl, (DacChannel.new_spec 0 DacState.init rfl).1,
    (DacChannel.new_spec 0 DacState.init rfl).2.2.2.1,
    (DacChannel.new_spec 0 DacState.init rfl).2.2.2.2⟩

/-- C8: `set_triggering` changes only the trigger-enable field of the
control register — the whole register file afterwards equals the old one with
just that field updated at this channel, so in particular the enable bits are
unchanged — via a single read-modify-write. -/
theorem DacChannel.set_triggering_frame (idx : Fin 2) (b : Bool) (s : DacState) :
    (DacChannel.set_triggering idx b s).regs =
      { s.regs with cr := { s.regs.cr with ten := Function.update s.regs.cr.ten idx b } } ∧
    (DacChannel.set_triggering idx b s).regs.cr.en = s.regs.cr.en ∧
    (DacChannel.set_triggering idx b s).trace = s.trace ++ [Event.modifyReg Reg.cr] :=
  ⟨rfl, rfl, rfl⟩

/-- C9: for every 12-bit write with an out-of-range value `v > 4095`, via
`Bit12Left` or `Bit12Right`, the stored field value is `v` truncated to its
low 12 bits (`v % 4096`); the write is unconditional, with no software
validation or rejection. -/
theorem DacChannel.set_bit12_truncates
    (idx : Fin 2) (v : Nat) (h : 4095 < v) (s : DacState) :
    (DacChannel.set idx (Value.bit12Left v) s).regs.dhr12l idx = v % 4096 ∧
    (DacChannel.set idx (Value.bit12Right v) s).regs.dhr12r idx = v % 4096 := by
  constructor <;> simp [DacChannel.set, dhr12lWrite, dhr12rWrite, maskField]

/-- Witness for C9 at `v = 5000`. -/
theorem DacChannel.set_bit12_truncates_witness :
    4095 < 5000 ∧
    (DacChannel.set 0 (Value.bit12Left 5000) DacState.init).regs.dhr12l 0 = 5000 % 4096 ∧
    (DacChannel.set 0 (Value.bit12Right 5000) DacState.init).regs.dhr12r 0 = 5000 % 4096 :=
  ⟨by decide, (DacChannel.set_bit12_truncates 0 5000 (by decide) DacState.init).1,
    (DacChannel.set_bit12_truncates 0 5000 (by decide) DacState.init).2⟩

/-- C10: `trigger` appends a whole-register write (not a read-modify-write)
of the software trigger register that sets this channel's `swtrig` bit and
writes the other channel's bit to its reset value `false`, from every prior
register state. -/
theorem DacChannel.trigger_isolated (idx : Fin 2) (s : DacState) :
    (DacChannel.trigger idx s).regs.swtrigr.swtrig idx = true ∧
    (DacChannel.trigger idx s).regs.swtrigr.swtrig (otherChannel idx) = false ∧
    (DacChannel.trigger idx s).trace = s.trace ++ [Event.writeReg Reg.swtrigr] := by
  refine ⟨?_, ?_, rfl⟩
  · simp [DacChannel.trigger, swtrigrWrite, Swtrigr.set_swtrig]
  · fin_cases idx <;>
      simp [DacChannel.trigger, swtrigrWrite, Swtrigr.set_swtrig, otherChannel,
        Swtrigr.reset, Function.update]
